import Mathlib

/-!
Verification development for the `daemon` repository (files `wings.js` and the
unnamed source file `part_000`, an earlier revision of the same daemon).
The JavaScript source is shallowly embedded: strings are `String`/`List Char`,
JS numbers that hold integral counters are `Nat`/`Int`, exact fractional
arithmetic is `Rat`, maps are association lists, and the observable effects of
a request handler (HTTP result, emitted socket events, container-engine calls,
state mutation) are returned explicitly.
-/

namespace Daemon

/-- The character `\x7b` (opening curly brace), written via its code so string
literals below can stay brace-free. -/
def lbrace : Char := '\x7b'

/-- The character `\x7d` (closing curly brace). -/
def rbrace : Char := '\x7d'

/-- Character list of a `(VAR)`-style placeholder `\x7b\x7bs\x7d\x7d`
(two opening braces, the name, two closing braces), as built by the template
code in both source files. -/
def phChars (s : String) : List Char := lbrace :: lbrace :: (s.data ++ [rbrace, rbrace])

/-- String form of a double-brace placeholder. -/
def ph (s : String) : String := String.mk (phChars s)

/-- Does `pat` occur as a contiguous substring?  Mirrors JS
`String.prototype.includes` and the matching test of a literal regex. -/
def hasSubstr (pat : List Char) : List Char → Bool
  | [] => pat.isPrefixOf []
  | c :: rest => pat.isPrefixOf (c :: rest) || hasSubstr pat rest

/-- Fuel-indexed worker for global literal replacement: at each position,
if `pat` matches, emit `rep` and resume after the match, otherwise copy one
character.  One unit of fuel is spent per step, so fuel `l.length` always
suffices for a nonempty `pat`.  This is JS `s.replace(new RegExp(quote(pat),
'g'), rep)` for a replacement string without `$`-escapes. -/
def replaceFuel (pat rep : List Char) : Nat → List Char → List Char
  | 0, l => l
  | _ + 1, [] => []
  | fuel + 1, c :: rest =>
    if pat.isPrefixOf (c :: rest) then
      rep ++ replaceFuel pat rep fuel ((c :: rest).drop pat.length)
    else
      c :: replaceFuel pat rep fuel rest

/-- Global literal replacement on character lists (the patterns built by the
source are always nonempty, so the empty-pattern guard is never exercised). -/
def replaceAllChars (pat rep l : List Char) : List Char :=
  if pat = [] then l else replaceFuel pat rep l.length l

/-- Global literal replacement on strings: the embedding of one
`result.replace(/pat/g, rep)` step of `processVariables`, valid when the
regex matches exactly the literal text `pat` (the source quotes its patterns,
or they are metacharacter-free) and `rep` contains no `$` (JS would expand
`$$`, `$&`, … in the replacement).  Every theorem below instantiates it only
on such inputs: substituted values are digit strings, `$`-free quantified
strings, or no substitution fires at all (a no-match `replace` returns the
string unchanged whatever the replacement argument is). -/
def jsReplaceAll (s pat rep : String) : String :=
  String.mk (replaceAllChars pat.data rep.data s.data)

/-- JS `s.toLowerCase()` restricted to the ASCII range exercised here. -/
def toLowerStr (s : String) : String := String.mk (s.data.map Char.toLower)

/-- JS `s.includes(pat)` on strings. -/
def hasSubstrStr (s pat : String) : Bool := hasSubstr pat.data s.data

/-- A character list with no opening brace, hence no start of a placeholder. -/
def braceFree (l : List Char) : Bool := l.all (fun c => c != lbrace)

/-- One entry of `egg.variables` (the fields the embedded code reads). -/
structure EggVariable where
  name : String
  env_variable : String
  default_value : String
  rules : String
deriving DecidableEq

/-- The `egg.scripts.installation` triple. -/
structure InstallTriple where
  script : String
  container : String
  entrypoint : String
deriving DecidableEq

/-- The `egg.scripts` object; `installation` may be absent. -/
structure EggScripts where
  installation : Option InstallTriple
deriving DecidableEq

/-- The `egg.config` section (only the fields the embedded code reads). -/
structure EggConfigSection where
  stop : Option String
deriving DecidableEq

/-- An egg descriptor.  JS object fields that may be `undefined` are `Option`. -/
structure Egg where
  uuid : String
  name : String
  startup : String
  «variables» : List EggVariable
  config : Option EggConfigSection
  scripts : Option EggScripts
deriving DecidableEq

/-- The `plan` object of an instance configuration; the JS code treats the
numeric fields as truthy only when nonzero. -/
structure Plan where
  ram : Nat
  cpu : Nat
  disk : Nat
deriving DecidableEq

/-- A per-instance configuration.  `eggId = ""` models a missing/falsy eggId,
`port = 0` a missing/falsy port; `variables` is the insertion-ordered object. -/
structure ServerConfig where
  eggId : String
  port : Nat
  plan : Option Plan
  «variables» : List (String × String)
  egg : Option Egg
deriving DecidableEq

/-- Association-list lookup, the embedding of `Map.get` / object indexing. -/
def lookupKey {α : Type} (l : List (String × α)) (k : String) : Option α :=
  match l with
  | [] => none
  | (k2, v) :: rest => if k2 = k then some v else lookupKey rest k

/-- Association-list delete, the embedding of `Map.delete`. -/
def eraseKey {α : Type} (l : List (String × α)) (k : String) : List (String × α) :=
  l.filter (fun kv => kv.1 != k)

/-- `config.variables[v.env_variable] ? … : v.default_value` — JS truthiness:
a missing key or an empty-string value falls back to the egg default. -/
def eggVarValue (cfg : ServerConfig) (v : EggVariable) : String :=
  match lookupKey cfg.«variables» v.env_variable with
  | some s => if s = "" then v.default_value else s
  | none => v.default_value

/-- `config.port || '25565'` (number stringified on substitution). -/
def portStr (cfg : ServerConfig) : String :=
  if cfg.port = 0 then "25565" else Nat.repr cfg.port

/-- `(config.plan ? config.plan.ram * 1024 : 1024).toString()`. -/
def memStr (cfg : ServerConfig) : String :=
  match cfg.plan with
  | some pl => Nat.repr (pl.ram * 1024)
  | none => Nat.repr 1024

/-- `config.variables?.SERVER_JARFILE || 'server.jar'`. -/
def jarStr (cfg : ServerConfig) : String :=
  match lookupKey cfg.«variables» "SERVER_JARFILE" with
  | some s => if s = "" then "server.jar" else s
  | none => "server.jar"

namespace Wings

/-- `wings.js` lines 911–941.  Sequential global literal replacements:
egg variables as `(server.build.env.V)` (the source regex-quotes this
pattern), then the system placeholders `(server.build.default.port)`,
`(SERVER_MEMORY)`, `(SERVER_JARFILE)` (regex literals with escaped dots),
then every instance variable `K` as `(K)`.  (Placeholders are written with
double braces in the source; see `ph`.)  The last pass builds its regex from
the *unquoted* key, so the literal embedding coincides with the source only
for metacharacter-free keys (`plainKey`); theorems quantifying over configs
carry that restriction, and `$`-escapes of JS replacement strings are
likewise outside the model (see `jsReplaceAll`). -/
def processVariables (t : String) (cfg : ServerConfig) : String :=
  let r1 := (match cfg.egg with
    | some egg => egg.«variables».foldl
        (fun r v => jsReplaceAll r (ph ("server.build.env." ++ v.env_variable))
          (eggVarValue cfg v)) t
    | none => t)
  let r2 := jsReplaceAll r1 (ph "server.build.default.port") (portStr cfg)
  let r3 := jsReplaceAll r2 (ph "SERVER_MEMORY") (memStr cfg)
  let r4 := jsReplaceAll r3 (ph "SERVER_JARFILE") (jarStr cfg)
  cfg.«variables».foldl (fun r kv => jsReplaceAll r (ph kv.1) kv.2) r4

end Wings

/-! ### Template expansion: `processVariables` of `part_000` -/

namespace Legacy

/-- `part_000` lines 745–767: egg variables as plain `(V)`, then the system
placeholders `(SERVER_PORT)` and `(SERVER_MEMORY)`; no
`(server.build.default.port)`, no `(SERVER_JARFILE)`, and no loop over
`config.variables`. -/
def processVariables (t : String) (cfg : ServerConfig) : String :=
  let r1 := (match cfg.egg with
    | some egg => egg.«variables».foldl
        (fun r v => jsReplaceAll r (ph v.env_variable) (eggVarValue cfg v)) t
    | none => t)
  let r2 := jsReplaceAll r1 (ph "SERVER_PORT") (portStr cfg)
  jsReplaceAll r2 (ph "SERVER_MEMORY") (memStr cfg)

end Legacy

/-! ### Path handling (Node `path.join` + the `startsWith` sandbox check) -/

/-- Split a character list at `/` separators (the segments of a POSIX path). -/
def splitSlash : List Char → List (List Char)
  | [] => [[]]
  | c :: rest =>
    match splitSlash rest with
    | [] => [[c]]
    | s :: ss => if c = '/' then [] :: s :: ss else (c :: s) :: ss

/-- Segments of a relative path string. -/
def pathSegments (s : String) : List String :=
  (splitSlash s.data).map (fun l => String.mk l)

/-- One step of Node path normalization over an absolute path's segments:
empty segments and `.` vanish, `..` pops (clamped at the root), anything
else is appended. -/
def normStep (acc : List String) (seg : String) : List String :=
  if seg = "" ∨ seg = "." then acc
  else if seg = ".." then acc.dropLast
  else acc ++ [seg]

/-- Node path normalization of an absolute path given as segments. -/
def normSegs (segs : List String) : List String := segs.foldl normStep []

/-- Render normalized segments as an absolute path string. -/
def renderAbs (segs : List String) : String :=
  segs.foldl (fun acc s => acc ++ "/" ++ s) ""

/-- Segments of `getServerPath(serverId) = path.join(__dirname, 'servers', id)`,
with `base` the (clean) segments of `__dirname`. -/
def serverRootSegs (base : List String) (id : String) : List String :=
  base ++ ["servers", id]

/-- Segments of `path.join(serverPath, filePath)`: Node joins and then
normalizes the whole path. -/
def resolvedSegs (base : List String) (id rel : String) : List String :=
  normSegs (serverRootSegs base id ++ pathSegments rel)

/-- JS `s.startsWith(p)`. -/
def startsWithStr (s p : String) : Bool := p.data.isPrefixOf s.data

/-- The sandbox test used by every file handler in both source files:
`fullPath.startsWith(serverPath)` on rendered strings. -/
def pathAllowed (base : List String) (id rel : String) : Bool :=
  startsWithStr (renderAbs (resolvedSegs base id rel)) (renderAbs (serverRootSegs base id))

/-- Directory containment: the resolved path is inside the instance root iff
the root's segments are a segment-wise prefix of the resolved segments. -/
def insideRoot (base : List String) (id rel : String) : Bool :=
  (serverRootSegs base id).isPrefixOf (resolvedSegs base id rel)

/-! ### Daemon state, HTTP results, events, engine calls -/

/-- Normalized stats as produced by `processContainerStats`. -/
structure ServerStats where
  cpu : Int
  memUsed : Int
  memTotal : Int
  memPercent : Int
  rx : Nat
  tx : Nat
deriving DecidableEq

/-- The daemon's mutable state: the container registry (`this.containers`,
keyed by instance id; the opaque handles are dropped), the cached stats
(`this.serverStats`), the persisted per-instance configs, and the egg map. -/
structure DaemonState where
  containers : List String
  serverStats : List (String × ServerStats)
  configs : List (String × ServerConfig)
  eggs : List (String × Egg)
deriving DecidableEq

/-- The HTTP outcome a handler sends (`res.status(...).json(...)`). -/
inductive HttpRes where
  | ok
  | badRequest (msg : String)
  | notFound (msg : String)
  | serverError (msg : String)
deriving DecidableEq

/-- An event emitted to the instance's socket room. -/
inductive Event where
  | status (s : String)
  | log (level msg : String)
deriving DecidableEq

/-- A call made to the container engine for the instance's container. -/
inductive EngineOp where
  | exec (cmd : List String)
  | stopT (seconds : Nat)
  | remove
  | kill
  | waitMs (ms : Nat)
deriving DecidableEq

/-- A filesystem call made by a file handler. -/
inductive FsOp where
  | statF (p : String)
  | readDir (p : String)
  | readF (p : String)
  | mkdirp (p : String)
  | writeF (p : String)
  | unlink (p : String)
  | rmdirRec (p : String)
deriving DecidableEq

namespace Wings

/-- `wings.js` `loadServerConfig`: read the persisted config; if it has an
`eggId` but no inline `egg` snapshot, rehydrate from the egg map (which may
fail, leaving `egg` absent).  `none` models the thrown
`Configuração … não encontrada` error. -/
def loadServerConfig (st : DaemonState) (id : String) : Option ServerConfig :=
  match lookupKey st.configs id with
  | none => none
  | some cfg =>
    if cfg.eggId ≠ "" ∧ cfg.egg = none then
      some { cfg with egg := lookupKey st.eggs cfg.eggId }
    else some cfg

/-- `wings.js` `createServerConfig` (lines 637–666): reject only when the
referenced egg is unknown; otherwise attach the egg snapshot, persist the
config, create the instance directory, and answer success.  No other
validation is performed. -/
def createServerConfig (st : DaemonState) (id : String) (config : ServerConfig) :
    HttpRes × DaemonState :=
  match lookupKey st.eggs config.eggId with
  | none => (HttpRes.badRequest "Egg não encontrado", st)
  | some egg =>
    let cfg2 := { config with egg := some egg }
    (HttpRes.ok, { st with configs := (id, cfg2) :: eraseKey st.configs id })

/-- `wings.js` `validateServerConfig` (lines 1771–1799): collect error
messages for a missing eggId, a port outside `[1024,65535]` (or falsy), an
incomplete plan, and `required` egg variables with neither a value nor a
default.  (This helper is defined in the source but never invoked.) -/
def validateServerConfig (st : DaemonState) (config : ServerConfig) : List String :=
  let e1 := if config.eggId = "" then ["EggId é obrigatório"] else []
  let e2 := if config.port = 0 ∨ config.port < 1024 ∨ 65535 < config.port then
      ["Porta deve estar entre 1024 e 65535"] else []
  let e3 := match config.plan with
    | none => ["Configuração do plano é obrigatória"]
    | some pl =>
      if pl.ram = 0 ∨ pl.cpu = 0 ∨ pl.disk = 0 then
        ["Configuração do plano é obrigatória"] else []
  let e4 := match lookupKey st.eggs config.eggId with
    | none => []
    | some egg => egg.«variables».foldl (fun acc v =>
        if hasSubstrStr v.rules "required" then
          match lookupKey config.«variables» v.env_variable with
          | some s =>
            if s = "" ∧ v.default_value = "" then
              acc ++ ["Variável " ++ v.name ++ " é obrigatória"] else acc
          | none =>
            if v.default_value = "" then
              acc ++ ["Variável " ++ v.name ++ " é obrigatória"] else acc
        else acc) []
  e1 ++ e2 ++ e3 ++ e4

/-- `wings.js` `startServer` (lines 1063–1114).  `engineOk` abstracts whether
`createContainer` + `container.start()` succeed.  The trailing
`online` events model the 15-second timer. -/
def startServer (st : DaemonState) (id : String) (engineOk : Bool) :
    HttpRes × DaemonState × List Event :=
  if st.containers.contains id then
    (HttpRes.badRequest "Servidor já está rodando", st, [])
  else
    match loadServerConfig st id with
    | none =>
      (HttpRes.serverError "Falha ao iniciar servidor", st,
        [Event.status "error", Event.log "error" "Erro ao iniciar"])
    | some cfg =>
      match cfg.egg with
      | none => (HttpRes.badRequest "Servidor não está configurado", st, [])
      | some _ =>
        if engineOk then
          (HttpRes.ok, { st with containers := id :: st.containers },
            [Event.status "starting", Event.log "info" "Servidor iniciando...",
             Event.status "online", Event.log "info" "Servidor online!"])
        else
          (HttpRes.serverError "Falha ao iniciar servidor", st,
            [Event.status "error", Event.log "error" "Erro ao iniciar"])

/-- The `container.exec` command built by `executeCommandInContainer`
(lines 1340–1349): a shell that echoes the command text into pid 1's stdin. -/
def shellEchoCmd (command : String) : List String :=
  ["sh", "-c", "echo \"" ++ command ++ "\" > /proc/1/fd/0"]

/-- `wings.js` `stopServer` (lines 1116–1162): reject if no container is
registered; publish `stopping`; if the egg's `config.stop` is truthy, echo it
into the container's stdin (whatever it is — there is no `^`-signal handling)
and wait 10 s; then engine stop with `t:10`, remove, evict the container and
its cached stats, publish `offline`. -/
def stopServer (st : DaemonState) (id : String) :
    HttpRes × DaemonState × List Event × List EngineOp :=
  if st.containers.contains id = false then
    (HttpRes.badRequest "Servidor não está rodando", st, [], [])
  else
    match loadServerConfig st id with
    | none =>
      (HttpRes.serverError "Falha ao parar servidor", st, [Event.status "stopping"], [])
    | some cfg =>
      let graceful : List EngineOp :=
        match cfg.egg with
        | some egg =>
          match egg.config with
          | some ec =>
            match ec.stop with
            | some s =>
              if s = "" then [] else [EngineOp.exec (shellEchoCmd s), EngineOp.waitMs 10000]
            | none => []
          | none => []
        | none => []
      (HttpRes.ok,
        { st with containers := st.containers.filter (fun x => x != id),
                  serverStats := eraseKey st.serverStats id },
        [Event.status "stopping", Event.status "offline",
         Event.log "info" "Servidor parado."],
        graceful ++ [EngineOp.stopT 10, EngineOp.remove])

/-- `wings.js` `killServer` (lines 1184–1209): engine kill + remove, evict the
container and its cached stats, publish `offline`. -/
def killServer (st : DaemonState) (id : String) :
    HttpRes × DaemonState × List Event × List EngineOp :=
  if st.containers.contains id = false then
    (HttpRes.badRequest "Servidor não está rodando", st, [], [])
  else
    (HttpRes.ok,
      { st with containers := st.containers.filter (fun x => x != id),
                serverStats := eraseKey st.serverStats id },
      [Event.status "offline"],
      [EngineOp.kill, EngineOp.remove])

/-- `wings.js` `getServerStats` (lines 1417–1426): answer the cached sample or
404 when none is cached. -/
def getServerStats (st : DaemonState) (id : String) : HttpRes × Option ServerStats :=
  match lookupKey st.serverStats id with
  | none => (HttpRes.notFound "Estatísticas não encontradas", none)
  | some s => (HttpRes.ok, some s)

/-- The deterministic event trail of `runInstallationScript` (lines 737–853):
progress logs, then either the success log (exit code 0) or the error log of
the thrown `Installation script failed …` (non-zero exit, rethrown).  The
asynchronous forwarding of the container's own log stream is not modelled. -/
def runInstallEvents (exitCode : Nat) : List Event :=
  [Event.log "info" "Executando script de instalação...",
   Event.log "info" "Baixando imagem de instalação...",
   Event.log "info" "Executando instalação..."] ++
  (if exitCode = 0 then
    [Event.log "info" "Script de instalação executado com sucesso!"]
  else
    [Event.log "error"
      ("Erro na instalação: Installation script failed with code " ++ Nat.repr exitCode)])

/-- `wings.js` `installServer` (lines 679–735).  `exitCode` is the install
container's exit status (`container.wait()`).  On exit 0 the 10-second timer
publishes `offline`; a non-zero exit makes `runInstallationScript` throw, and
the catch block publishes `install_failed`.  A missing config or missing egg
snapshot also lands in the catch block. -/
def installServer (st : DaemonState) (id : String) (exitCode : Nat) :
    HttpRes × List Event :=
  match loadServerConfig st id with
  | none =>
    (HttpRes.serverError "Falha na instalação",
      [Event.status "install_failed",
       Event.log "error" "Erro na instalação: Configuração não encontrada"])
  | some cfg =>
    let pre := [Event.status "installing",
      Event.log "info" "Iniciando instalação do servidor..."]
    match cfg.egg with
    | none =>
      (HttpRes.serverError "Falha na instalação",
        pre ++ [Event.status "install_failed", Event.log "error" "Erro na instalação"])
    | some egg =>
      let hasScript := match egg.scripts with
        | some scr => scr.installation.isSome
        | none => false
      if hasScript then
        if exitCode = 0 then
          (HttpRes.ok, pre ++ runInstallEvents exitCode ++
            [Event.status "offline",
             Event.log "info" "Instalação concluída! Servidor pronto para uso."])
        else
          (HttpRes.serverError "Falha na instalação",
            pre ++ runInstallEvents exitCode ++
            [Event.status "install_failed", Event.log "error" "Erro na instalação"])
      else
        (HttpRes.ok, pre ++ [Event.log "info" "Configurando servidor..."] ++
          [Event.status "offline",
           Event.log "info" "Instalação concluída! Servidor pronto para uso."])

/-- `wings.js` `detectLogLevel` (lines 1279–1286): case-insensitive substring
search with this if-chain order: error words, warn words, `info`/`done`,
`debug`, default `info`. -/
def detectLogLevel (log : String) : String :=
  let l := toLowerStr log
  if hasSubstrStr l "error" || hasSubstrStr l "exception" || hasSubstrStr l "fatal" then
    "error"
  else if hasSubstrStr l "warn" || hasSubstrStr l "warning" then "warning"
  else if hasSubstrStr l "info" || hasSubstrStr l "done" then "info"
  else if hasSubstrStr l "debug" then "debug"
  else "info"

end Wings

/-- The severity classifier as claim C9 words it (spec §4.8): same substring
sets, but with `debug` tested before `info`/`done`.  Stated from the claim's
words, for comparison with `Wings.detectLogLevel`. -/
def detectLogLevelClaimOrder (log : String) : String :=
  let l := toLowerStr log
  if hasSubstrStr l "error" || hasSubstrStr l "exception" || hasSubstrStr l "fatal" then
    "error"
  else if hasSubstrStr l "warn" || hasSubstrStr l "warning" then "warning"
  else if hasSubstrStr l "debug" then "debug"
  else if hasSubstrStr l "info" || hasSubstrStr l "done" then "info"
  else "info"

/-! ### Stats normalization -/

/-- JS `Math.round`: half-up rounding, `round x = ⌊x + 1/2⌋`. -/
def jsRound (q : Rat) : Int := Int.floor (q + 1 / 2)

/-- One raw engine stats sample, as read by `processContainerStats`.
`precpuTotal`/`precpuSystem` already carry the `?. … || 0` default (an absent
`precpu` baseline is `0`); `onlineCpus = 0` and `memLimit = 0` model the
absent/falsy cases handled by `|| 1`. -/
structure RawStats where
  cpuTotal : Nat
  precpuTotal : Nat
  systemCpu : Nat
  precpuSystem : Nat
  onlineCpus : Nat
  memUsage : Nat
  memLimit : Nat
  netRx : Nat
  netTx : Nat
deriving DecidableEq

namespace Wings

/-- `wings.js` `processContainerStats` (lines 1381–1415), identical in
`part_000` (lines 1133–1170).  JS float arithmetic on these integer counters
is modelled exactly over `Rat`. -/
def processContainerStats (s : RawStats) : ServerStats :=
  let cpuDelta : Int := (s.cpuTotal : Int) - (s.precpuTotal : Int)
  let systemDelta : Int := (s.systemCpu : Int) - (s.precpuSystem : Int)
  let onlineCpus : Nat := if s.onlineCpus = 0 then 1 else s.onlineCpus
  let cpuPercent : Rat :=
    if 0 < systemDelta then
      ((cpuDelta : Rat) / (systemDelta : Rat)) * (onlineCpus : Rat) * 100
    else 0
  let memoryLimit : Nat := if s.memLimit = 0 then 1 else s.memLimit
  let memoryPercent : Rat := ((s.memUsage : Rat) / (memoryLimit : Rat)) * 100
  { cpu := min (jsRound cpuPercent) 100
    memUsed := jsRound ((s.memUsage : Rat) / 1048576)
    memTotal := jsRound ((memoryLimit : Rat) / 1048576)
    memPercent := min (jsRound memoryPercent) 100
    rx := s.netRx
    tx := s.netTx }

end Wings

/-- Clamp an integer into `[0, 100]`. -/
def clamp100 (z : Int) : Int := min (max z 0) 100

/-- The stats normalization rule in the amended wording of claim C7:
cpu is the rounded `(Δ container cpu / Δ system cpu) × onlineCpus × 100`
clamped into `[0,100]` when the system delta is positive and `0` otherwise;
memory figures are rounded MiB over the 1-guarded limit; the memory percent
is rounded and clamped.  Stated from the amended claim's words, for
comparison with `Wings.processContainerStats`. -/
def normalizedStatsSpec (s : RawStats) : ServerStats :=
  let deltaC : Rat := (s.cpuTotal : Rat) - (s.precpuTotal : Rat)
  let deltaS : Rat := (s.systemCpu : Rat) - (s.precpuSystem : Rat)
  let cpus : Rat := (max s.onlineCpus 1 : Nat)
  let limit : Nat := max s.memLimit 1
  { cpu := if 0 < deltaS then clamp100 (jsRound (deltaC / deltaS * cpus * 100)) else 0
    memUsed := jsRound ((s.memUsage : Rat) / 2 ^ 20)
    memTotal := jsRound ((limit : Rat) / 2 ^ 20)
    memPercent := clamp100 (jsRound ((s.memUsage : Rat) / (limit : Rat) * 100))
    rx := s.netRx
    tx := s.netTx }

/-! ### File handlers (all four check `fullPath.startsWith(serverPath)`) -/

namespace Wings

/-- `wings.js` `uploadFile` (lines 1523–1554): reject a falsy path, resolve,
apply the `startsWith` sandbox check, then `mkdir -p` the parent and write. -/
def uploadFile (base : List String) (id rel : String) : HttpRes × List FsOp :=
  if rel = "" then
    (HttpRes.badRequest "Caminho e conteúdo são obrigatórios", [])
  else
    let full := renderAbs (resolvedSegs base id rel)
    if pathAllowed base id rel = false then
      (HttpRes.badRequest "Caminho inválido", [])
    else
      (HttpRes.ok,
        [FsOp.mkdirp (renderAbs ((resolvedSegs base id rel).dropLast)), FsOp.writeF full])

/-- `wings.js` `deleteFile` (lines 1589–1623): reject a falsy path, resolve,
apply the `startsWith` sandbox check, stat, then recursive rmdir or unlink.
`isDir` is what `fs.stat` reports. -/
def deleteFile (base : List String) (id rel : String) (isDir : Bool) :
    HttpRes × List FsOp :=
  if rel = "" then
    (HttpRes.badRequest "Caminho é obrigatório", [])
  else
    let full := renderAbs (resolvedSegs base id rel)
    if pathAllowed base id rel = false then
      (HttpRes.badRequest "Caminho inválido", [])
    else
      (HttpRes.ok,
        [FsOp.statF full] ++ (if isDir then [FsOp.rmdirRec full] else [FsOp.unlink full]))

/-- `wings.js` `getServerFiles` (lines 1463–1521): path defaults to `/`,
sandbox check, stat, then directory listing or file read. -/
def getServerFiles (base : List String) (id rel : String) (isDir : Bool) :
    HttpRes × List FsOp :=
  let rel2 := if rel = "" then "/" else rel
  let full := renderAbs (resolvedSegs base id rel2)
  if pathAllowed base id rel2 = false then
    (HttpRes.badRequest "Caminho inválido", [])
  else
    (HttpRes.ok,
      [FsOp.statF full] ++ (if isDir then [FsOp.readDir full] else [FsOp.readF full]))

end Wings

/-! ### Derived notions used by the theorems -/

/-- `egg.scripts && egg.scripts.installation` for a loaded config. -/
def hasInstallScript (cfg : ServerConfig) : Bool :=
  match cfg.egg with
  | some egg =>
    match egg.scripts with
    | some scr => scr.installation.isSome
    | none => false
  | none => false

/-! ### Concrete fixtures (used by closed theorems and witnesses) -/

/-- The built-in ARK egg of `wings.js` (trimmed to the embedded fields): its
`config.stop` is the caret command `"^C"`. -/
def arkEgg : Egg :=
  { uuid := "ark-survival-evolved"
    name := "ARK: Survival Evolved"
    startup := "./ShooterGameServer TheIsland?listen"
    «variables» := []
    config := some { stop := some "^C" }
    scripts := some ⟨some ⟨"#!/bin/bash\ncd /mnt/server\n./steamcmd.sh +quit",
      "ghcr.io/pterodactyl/installers:debian", "bash"⟩⟩ }

/-- An instance configuration bound to the ARK egg. -/
def arkCfg : ServerConfig :=
  { eggId := "ark-survival-evolved"
    port := 7777
    plan := some ⟨4, 2, 20⟩
    «variables» := []
    egg := some arkEgg }

/-- A cached normalized stats sample. -/
def sampleStats : ServerStats := ⟨12, 512, 4096, 13, 10, 20⟩

/-- A daemon state with the ARK instance `s1` registered and running. -/
def stArk : DaemonState :=
  { containers := ["s1"]
    serverStats := [("s1", sampleStats)]
    configs := [("s1", arkCfg)]
    eggs := [("ark-survival-evolved", arkEgg)] }

/-- The built-in Minecraft egg of `wings.js`, trimmed to two representative
variables. -/
def mcEgg : Egg :=
  { uuid := "minecraft-vanilla"
    name := "Vanilla Minecraft"
    startup := "java -Xms128M -Xmx" ++ ph "SERVER_MEMORY" ++ "M -jar " ++ ph "SERVER_JARFILE"
    «variables» :=
      [{ name := "Server Jar File", env_variable := "SERVER_JARFILE"
         default_value := "server.jar", rules := "required|string|max:20" },
       { name := "Maximum Players", env_variable := "MAX_PLAYERS"
         default_value := "20", rules := "required|numeric|min:1" }]
    config := some { stop := some "stop" }
    scripts := some ⟨some ⟨"#!/bin/bash\ncd /mnt/server\ncurl -o server.jar URL",
      "ghcr.io/pterodactyl/installers:debian", "bash"⟩⟩ }

/-- An instance configuration bound to the Minecraft egg. -/
def mcCfg : ServerConfig :=
  { eggId := "minecraft-vanilla"
    port := 25565
    plan := some ⟨2, 1, 10⟩
    «variables» := []
    egg := some mcEgg }

/-- A daemon state with the Minecraft instance `s1` configured, not running. -/
def stMc : DaemonState :=
  { containers := []
    serverStats := []
    configs := [("s1", mcCfg)]
    eggs := [("minecraft-vanilla", mcEgg)] }

/-- A daemon state holding only the Minecraft egg and nothing else. -/
def stEggs : DaemonState :=
  { containers := []
    serverStats := []
    configs := []
    eggs := [("minecraft-vanilla", mcEgg)] }

/-- A Minecraft-bound config whose port is the only varying field. -/
def cfgPort (p : Nat) : ServerConfig :=
  { eggId := "minecraft-vanilla"
    port := p
    plan := some ⟨2, 1, 10⟩
    «variables» := []
    egg := none }

/-- An egg with no declared variables (isolates the system placeholders). -/
def plainEgg : Egg :=
  { uuid := "plain"
    name := "Plain"
    startup := ""
    «variables» := []
    config := none
    scripts := none }

/-- A config over `plainEgg` with the given port and plan ram. -/
def cfgSys (p r : Nat) : ServerConfig :=
  { eggId := "plain"
    port := p
    plan := some ⟨r, 1, 10⟩
    «variables» := []
    egg := some plainEgg }

theorem data_append (a b : String) : (a ++ b).data = a.data ++ b.data := rfl

theorem isPrefixOf_append_self (l t : List Char) : l.isPrefixOf (l ++ t) = true := by
  induction l with
  | nil => simp
  | cons c cs ih => simp [List.isPrefixOf_cons₂, ih]

theorem isPrefixOf_false_common (u p2 l2 : List Char) (c d : Char)
    (h : (c == d) = false) :
    (u ++ c :: p2).isPrefixOf (u ++ d :: l2) = false := by
  induction u with
  | nil => simp [List.isPrefixOf, h]
  | cons a as ih => simp [List.isPrefixOf, ih]

theorem hasSubstr_of_braceFree (pt x : List Char) (hx : braceFree x = true) :
    hasSubstr (lbrace :: pt) x = false := by
  induction x with
  | nil => rfl
  | cons c rest ih =>
    simp only [braceFree, List.all_cons, Bool.and_eq_true, bne_iff_ne] at hx
    have hc : (lbrace == c) = false := by
      exact beq_eq_false_iff_ne.mpr (fun e => hx.1 e.symm)
    simp only [hasSubstr, List.isPrefixOf, hc, Bool.false_and, Bool.false_or]
    exact ih (by simpa [braceFree] using hx.2)

theorem replaceFuel_no_match (pat rep : List Char) (fuel : Nat) (l : List Char)
    (h : hasSubstr pat l = false) : replaceFuel pat rep fuel l = l := by
  induction fuel generalizing l with
  | zero => rfl
  | succ f ih =>
    cases l with
    | nil => rfl
    | cons c rest =>
      simp only [hasSubstr, Bool.or_eq_false_iff] at h
      simp only [replaceFuel, h.1, Bool.false_eq_true, if_false]
      exact congrArg (c :: ·) (ih rest h.2)

theorem replaceFuel_match (pat rep b : List Char) (fuel : Nat) (hp : pat ≠ []) :
    replaceFuel pat rep (fuel + 1) (pat ++ b) = rep ++ replaceFuel pat rep fuel b := by
  cases pat with
  | nil => exact absurd rfl hp
  | cons p ps =>
    have hpre : (p :: ps).isPrefixOf (p :: (ps ++ b)) = true := by
      simpa using isPrefixOf_append_self (p :: ps) b
    have hdrop : List.drop (p :: ps).length (p :: (ps ++ b)) = b := by
      simpa using List.drop_left (p :: ps) b
    show replaceFuel (p :: ps) rep (fuel + 1) (p :: (ps ++ b)) = _
    rw [replaceFuel, if_pos hpre, hdrop]

theorem replaceFuel_nil (pat rep : List Char) (fuel : Nat) :
    replaceFuel pat rep fuel [] = [] := by
  cases fuel <;> rfl

theorem replaceAllChars_cons (c : Char) (pt rep l : List Char) :
    replaceAllChars (c :: pt) rep l = replaceFuel (c :: pt) rep l.length l := by
  simp [replaceAllChars]

theorem replaceFuel_exact (pat rep : List Char) (hp : pat ≠ []) :
    replaceFuel pat rep pat.length pat = rep := by
  cases pat with
  | nil => exact absurd rfl hp
  | cons p ps =>
    have h := replaceFuel_match (p :: ps) rep [] ps.length (by simp)
    rw [List.append_nil] at h
    rw [show (p :: ps).length = ps.length + 1 from rfl, h, replaceFuel_nil, List.append_nil]

theorem jsReplaceAll_self (s rep : String) :
    jsReplaceAll (ph s) (ph s) rep = rep := by
  show String.mk (replaceAllChars (phChars s) rep.data (phChars s)) = rep
  rw [show phChars s = lbrace :: (lbrace :: (s.data ++ [rbrace, rbrace])) from rfl,
    replaceAllChars_cons, replaceFuel_exact _ _ (by simp)]

theorem jsReplaceAll_no_match (s pat rep : String)
    (h : hasSubstr pat.data s.data = false) (hp : pat.data ≠ []) :
    jsReplaceAll s pat rep = s := by
  show String.mk (replaceAllChars pat.data rep.data s.data) = s
  rw [replaceAllChars, if_neg hp, replaceFuel_no_match _ _ _ _ h]

theorem foldl_jsReplaceAll_id {α : Type} (t : String) (l : List α)
    (patf valf : α → String)
    (h : ∀ a ∈ l, hasSubstr (patf a).data t.data = false)
    (hne : ∀ a, (patf a).data ≠ []) :
    l.foldl (fun r a => jsReplaceAll r (patf a) (valf a)) t = t := by
  induction l with
  | nil => rfl
  | cons x xs ih =>
    simp only [List.foldl_cons]
    rw [jsReplaceAll_no_match t (patf x) (valf x) (h x (by simp)) (hne x)]
    exact ih (fun a ha => h a (by simp [ha]))

theorem ph_data (s : String) : (ph s).data = phChars s := rfl

theorem ph_data_ne_nil (s : String) : (ph s).data ≠ [] := by
  simp [ph_data, phChars]

theorem digitChar_ne_lbrace (n : Nat) : Nat.digitChar n ≠ lbrace := by
  by_cases h : n < 16
  · interval_cases n <;> decide
  · have e : Nat.digitChar n = '*' := by
      unfold Nat.digitChar
      iterate 16 rw [if_neg (by omega)]
    rw [e]; decide

theorem toDigitsCore_succ (f n : Nat) (acc : List Char) :
    Nat.toDigitsCore 10 (f + 1) n acc =
      if n / 10 = 0 then Nat.digitChar (n % 10) :: acc
      else Nat.toDigitsCore 10 f (n / 10) (Nat.digitChar (n % 10) :: acc) := by
  rw [Nat.toDigitsCore]

theorem toDigitsCore_ne_lbrace (fuel : Nat) :
    ∀ (n : Nat) (acc : List Char), (∀ c ∈ acc, c ≠ lbrace) →
      ∀ c ∈ Nat.toDigitsCore 10 fuel n acc, c ≠ lbrace := by
  induction fuel with
  | zero => intro n acc hacc; exact hacc
  | succ f ih =>
    intro n acc hacc
    have hcons : ∀ c ∈ Nat.digitChar (n % 10) :: acc, c ≠ lbrace := by
      intro c hc
      rcases List.mem_cons.mp hc with h | h
      · exact h ▸ digitChar_ne_lbrace (n % 10)
      · exact hacc c h
    rw [toDigitsCore_succ]
    by_cases h : n / 10 = 0
    · rw [if_pos h]; exact hcons
    · rw [if_neg h]; exact ih (n / 10) _ hcons

theorem natRepr_braceFree (n : Nat) : braceFree (Nat.repr n).data = true := by
  simp only [braceFree, List.all_eq_true, bne_iff_ne]
  intro c hc
  exact toDigitsCore_ne_lbrace (n + 1) n [] (by simp) c hc

theorem not_mem_filter_ne (l : List String) (id : String) :
    id ∉ l.filter (fun x => x != id) := by
  intro hm
  exact bne_iff_ne.mp (List.mem_filter.mp hm).2 rfl

theorem contains_filter_ne (l : List String) (id : String) :
    (l.filter (fun x => x != id)).contains id = false := by
  rcases hc : (l.filter (fun x => x != id)).contains id with _ | _
  · rfl
  · exact absurd (List.elem_iff.mp hc) (not_mem_filter_ne l id)

theorem lookupKey_eraseKey {α : Type} (l : List (String × α)) (k : String) :
    lookupKey (eraseKey l k) k = none := by
  induction l with
  | nil => rfl
  | cons kv rest ih =>
    rcases h : (kv.1 != k) with _ | _
    · simpa [eraseKey, List.filter_cons, h] using ih
    · have hk : ¬ kv.1 = k := bne_iff_ne.mp h
      simpa [eraseKey, List.filter_cons, h, lookupKey, hk] using ih

/-! ### Claim theorems -/

/-- C1: the File Service's sandbox check is a raw string `startsWith`, so the
relative path `../s1evil/secret` of instance `s1` resolves to the *sibling*
directory `servers/s1evil` — outside the instance root — yet passes the check,
and `uploadFile`/`deleteFile`/`getServerFiles` perform the filesystem
operation there, while the honest traversal `../../etc/passwd` is refused.
This exhibits the claim's escape case being accepted (code bug). -/
theorem fileService_prefix_check_escape :
    Wings.uploadFile ["srv", "daemon"] "s1" "../s1evil/secret"
      = (HttpRes.ok, [FsOp.mkdirp "/srv/daemon/servers/s1evil",
          FsOp.writeF "/srv/daemon/servers/s1evil/secret"])
    ∧ (Wings.deleteFile ["srv", "daemon"] "s1" "../s1evil/secret" false).1 = HttpRes.ok
    ∧ (Wings.getServerFiles ["srv", "daemon"] "s1" "../s1evil/secret" false).1 = HttpRes.ok
    ∧ pathAllowed ["srv", "daemon"] "s1" "../s1evil/secret" = true
    ∧ insideRoot ["srv", "daemon"] "s1" "../s1evil/secret" = false
    ∧ hasSubstrStr "../s1evil/secret" ".." = true
    ∧ Wings.uploadFile ["srv", "daemon"] "s1" "../../etc/passwd"
      = (HttpRes.badRequest "Caminho inválido", []) := by
  decide

/-- C2: `createServerConfig` accepts a config whose port is 65536 (and 1023)
because it never invokes the port validation; the in-file (but dead)
`validateServerConfig` is exactly the `[1024, 65535]` boundary check the claim
describes, rejecting 1023 and 65536 while accepting 1024 and 65535. -/
theorem createServerConfig_port_never_validated :
    (Wings.createServerConfig stEggs "s1" (cfgPort 65536)).1 = HttpRes.ok
    ∧ (Wings.createServerConfig stEggs "s1" (cfgPort 1023)).1 = HttpRes.ok
    ∧ Wings.validateServerConfig stEggs (cfgPort 65536)
        = ["Porta deve estar entre 1024 e 65535"]
    ∧ Wings.validateServerConfig stEggs (cfgPort 1023)
        = ["Porta deve estar entre 1024 e 65535"]
    ∧ Wings.validateServerConfig stEggs (cfgPort 1024) = []
    ∧ Wings.validateServerConfig stEggs (cfgPort 65535) = [] := by
  decide

/-- C5: stopping the running ARK instance (whose egg stop command is `"^C"`)
publishes `stopping` first and ends `offline` with the container stopped
(`t:10`) and removed — but the caret command is *not* translated to a SIGINT
kill: the supervisor echoes the literal two-character text `^C` into the
server's stdin via the command injector. -/
theorem stopServer_writes_caret_command_as_text :
    Wings.stopServer stArk "s1" =
      (HttpRes.ok,
       { containers := [], serverStats := [], configs := [("s1", arkCfg)],
         eggs := [("ark-survival-evolved", arkEgg)] },
       [Event.status "stopping", Event.status "offline",
        Event.log "info" "Servidor parado."],
       [EngineOp.exec ["sh", "-c", "echo \"^C\" > /proc/1/fd/0"], EngineOp.waitMs 10000,
        EngineOp.stopT 10, EngineOp.remove]) := by
  decide

/-- C3 (counterexample): the wings.js expander leaves `(SERVER_PORT)`
untouched (it only rewrites `(server.build.default.port)`), and the part_000
expander conversely leaves `(server.build.default.port)` untouched, so no
single `processVariables` replaces both port placeholders with `cfg.port`. -/
theorem processVariables_port_placeholder_gap :
    Wings.processVariables (ph "SERVER_PORT") (cfgSys 7777 2) = ph "SERVER_PORT"
    ∧ ph "SERVER_PORT" ≠ "7777"
    ∧ Legacy.processVariables (ph "server.build.default.port") (cfgSys 7777 2)
        = ph "server.build.default.port"
    ∧ ph "server.build.default.port" ≠ "7777" := by
  decide

/-- C9 (counterexample): the classifier tests `info`/`done` *before* `debug`,
so a line containing both words is classified `info`, where the claim's
precedence (debug before info) yields `debug`. -/
theorem detectLogLevel_counterexample :
    Wings.detectLogLevel "Loading debug info" = "info"
    ∧ detectLogLevelClaimOrder "Loading debug info" = "debug"
    ∧ Wings.detectLogLevel "Loading debug info"
        ≠ detectLogLevelClaimOrder "Loading debug info" := by
  decide

/-- C7 (counterexample): with a zero `precpu` baseline but positive counters
(total 50, system 100, 1 cpu) the code emits `50`, not the claimed `0`; the
memory percent is *rounded* (`1/3 → 33`, not `100/3`); and a shrinking
container counter yields `-100`, so the cpu value is not clamped below at 0. -/
theorem processContainerStats_counterexample :
    (Wings.processContainerStats ⟨50, 0, 100, 0, 1, 0, 1, 0, 0⟩).cpu = 50
    ∧ (50 : Int) ≠ 0
    ∧ (Wings.processContainerStats ⟨0, 0, 0, 0, 1, 1, 3, 0, 0⟩).memPercent = 33
    ∧ ((33 : Rat) ≠ 100 / 3)
    ∧ (Wings.processContainerStats ⟨0, 100, 100, 0, 1, 0, 1, 0, 0⟩).cpu = -100 := by
  refine ⟨?_, by norm_num, ?_, by norm_num, ?_⟩ <;>
    · simp only [Wings.processContainerStats, jsRound]
      norm_num

/-- C6: starting an instance whose container is already registered answers the
already-running error (HTTP 400, the spec's `Conflict` slot) and leaves the
whole daemon state — container registry, cached stats, persisted configs,
eggs — untouched and emits nothing, regardless of the engine. -/
theorem startServer_rejects_running_instance (st : DaemonState) (id : String)
    (engineOk : Bool) (h : st.containers.contains id = true) :
    Wings.startServer st id engineOk
      = (HttpRes.badRequest "Servidor já está rodando", st, []) := by
  have hmem : id ∈ st.containers := by simpa using h
  simp [Wings.startServer, hmem]

/-- Witness for C6 at the running ARK fixture. -/
theorem startServer_rejects_running_instance_witness :
    Wings.startServer stArk "s1" true
      = (HttpRes.badRequest "Servidor já está rodando", stArk, []) :=
  startServer_rejects_running_instance stArk "s1" true (by decide)

/-- C10: whenever `stopServer` or `killServer` answers success, the instance
is gone from the container registry and its cached stats entry is deleted, so
`getServerStats` on the resulting state answers 404. -/
theorem stop_kill_clear_registry_and_stats (st : DaemonState) (id : String) :
    ((Wings.stopServer st id).1 = HttpRes.ok →
      (Wings.stopServer st id).2.1.containers.contains id = false
      ∧ lookupKey (Wings.stopServer st id).2.1.serverStats id = none
      ∧ (Wings.getServerStats (Wings.stopServer st id).2.1 id).1
          = HttpRes.notFound "Estatísticas não encontradas")
    ∧ ((Wings.killServer st id).1 = HttpRes.ok →
      (Wings.killServer st id).2.1.containers.contains id = false
      ∧ lookupKey (Wings.killServer st id).2.1.serverStats id = none
      ∧ (Wings.getServerStats (Wings.killServer st id).2.1 id).1
          = HttpRes.notFound "Estatísticas não encontradas") := by
  constructor
  · intro hok
    by_cases hmem : id ∈ st.containers
    · rcases hload : Wings.loadServerConfig st id with _ | cfg
      · simp [Wings.stopServer, hmem, hload] at hok
      · refine ⟨?_, ?_, ?_⟩ <;>
          simp [Wings.stopServer, Wings.getServerStats, hmem, hload,
            lookupKey_eraseKey, contains_filter_ne, not_mem_filter_ne]
    · simp [Wings.stopServer, hmem] at hok
  · intro hok
    by_cases hmem : id ∈ st.containers
    · refine ⟨?_, ?_, ?_⟩ <;>
        simp [Wings.killServer, Wings.getServerStats, hmem,
          lookupKey_eraseKey, contains_filter_ne, not_mem_filter_ne]
    · simp [Wings.killServer, hmem] at hok

/-- Witness for C10 at the running ARK fixture. -/
theorem stop_kill_clear_registry_and_stats_witness :
    lookupKey (Wings.stopServer stArk "s1").2.1.serverStats "s1" = none
    ∧ (Wings.getServerStats (Wings.stopServer stArk "s1").2.1 "s1").1
        = HttpRes.notFound "Estatísticas não encontradas"
    ∧ (Wings.getServerStats (Wings.killServer stArk "s1").2.1 "s1").1
        = HttpRes.notFound "Estatísticas não encontradas" :=
  ⟨((stop_kill_clear_registry_and_stats stArk "s1").1 (by decide)).2.1,
   ((stop_kill_clear_registry_and_stats stArk "s1").1 (by decide)).2.2,
   ((stop_kill_clear_registry_and_stats stArk "s1").2 (by decide)).2.2⟩

/-- C8: for an install run that reaches the install container's exit, the
event stream contains the `offline` status exactly when the exit code is 0,
and the `install_failed` status exactly when it is non-zero. -/
theorem installServer_exit_code_gates_status (st : DaemonState) (id : String)
    (exitCode : Nat) (cfg : ServerConfig)
    (hcfg : Wings.loadServerConfig st id = some cfg)
    (hscript : hasInstallScript cfg = true) :
    (Event.status "offline" ∈ (Wings.installServer st id exitCode).2 ↔ exitCode = 0)
    ∧ (Event.status "install_failed" ∈ (Wings.installServer st id exitCode).2
        ↔ exitCode ≠ 0) := by
  rcases hegg : cfg.egg with _ | egg
  · simp [hasInstallScript, hegg] at hscript
  · rcases hscr : egg.scripts with _ | scr
    · simp [hasInstallScript, hegg, hscr] at hscript
    · have hins : scr.installation.isSome = true := by
        simpa [hasInstallScript, hegg, hscr] using hscript
      by_cases h0 : exitCode = 0
      · constructor <;>
          simp [Wings.installServer, hcfg, hegg, hscr, hins, Wings.runInstallEvents, h0]
      · constructor <;>
          simp [Wings.installServer, hcfg, hegg, hscr, hins, Wings.runInstallEvents, h0]

/-- Witness for C8: the Minecraft fixture config, exit codes 0 and 1. -/
theorem installServer_exit_code_gates_status_witness :
    (Event.status "offline" ∈ (Wings.installServer stMc "s1" 0).2
      ↔ (0 : Nat) = 0)
    ∧ (Event.status "install_failed" ∈ (Wings.installServer stMc "s1" 1).2
      ↔ (1 : Nat) ≠ 0) :=
  ⟨(installServer_exit_code_gates_status stMc "s1" 0 mcCfg (by decide) (by decide)).1,
   (installServer_exit_code_gates_status stMc "s1" 1 mcCfg (by decide) (by decide)).2⟩

/-- C9 (amended): the classifier's actual precedence — error words, then warn
words, then `info`/`done`, then `debug`, with `info` as the default. -/
theorem detectLogLevel_classification (log : String) :
    ((hasSubstrStr (toLowerStr log) "error" || hasSubstrStr (toLowerStr log) "exception"
        || hasSubstrStr (toLowerStr log) "fatal") = true →
      Wings.detectLogLevel log = "error")
    ∧ ((hasSubstrStr (toLowerStr log) "error" || hasSubstrStr (toLowerStr log) "exception"
        || hasSubstrStr (toLowerStr log) "fatal") = false →
      (hasSubstrStr (toLowerStr log) "warn"
        || hasSubstrStr (toLowerStr log) "warning") = true →
      Wings.detectLogLevel log = "warning")
    ∧ ((hasSubstrStr (toLowerStr log) "error" || hasSubstrStr (toLowerStr log) "exception"
        || hasSubstrStr (toLowerStr log) "fatal") = false →
      (hasSubstrStr (toLowerStr log) "warn"
        || hasSubstrStr (toLowerStr log) "warning") = false →
      (hasSubstrStr (toLowerStr log) "info"
        || hasSubstrStr (toLowerStr log) "done") = true →
      Wings.detectLogLevel log = "info")
    ∧ ((hasSubstrStr (toLowerStr log) "error" || hasSubstrStr (toLowerStr log) "exception"
        || hasSubstrStr (toLowerStr log) "fatal") = false →
      (hasSubstrStr (toLowerStr log) "warn"
        || hasSubstrStr (toLowerStr log) "warning") = false →
      (hasSubstrStr (toLowerStr log) "info"
        || hasSubstrStr (toLowerStr log) "done") = false →
      hasSubstrStr (toLowerStr log) "debug" = true →
      Wings.detectLogLevel log = "debug")
    ∧ ((hasSubstrStr (toLowerStr log) "error" || hasSubstrStr (toLowerStr log) "exception"
        || hasSubstrStr (toLowerStr log) "fatal") = false →
      (hasSubstrStr (toLowerStr log) "warn"
        || hasSubstrStr (toLowerStr log) "warning") = false →
      (hasSubstrStr (toLowerStr log) "info"
        || hasSubstrStr (toLowerStr log) "done") = false →
      hasSubstrStr (toLowerStr log) "debug" = false →
      Wings.detectLogLevel log = "info") := by
  refine ⟨?_, ?_, ?_, ?_, ?_⟩ <;>
    · intros
      simp [Wings.detectLogLevel, *]

/-- Witness for C9's amended classification at a warn line. -/
theorem detectLogLevel_classification_witness :
    Wings.detectLogLevel "warn: low disk space" = "warning" :=
  (detectLogLevel_classification "warn: low disk space").2.1 (by decide) (by decide)

theorem jsRound_nonneg (q : Rat) (h : 0 ≤ q) : 0 ≤ jsRound q := by
  rw [jsRound]
  exact Int.floor_nonneg.mpr (by linarith)

theorem jsRound_zero : jsRound 0 = 0 := by norm_num [jsRound]

theorem clamp100_bounds (z : Int) : 0 ≤ clamp100 z ∧ clamp100 z ≤ 100 := by
  unfold clamp100; omega

/-- C7 (amended): for samples whose container counter does not decrease, the
normalized stats are exactly the amended rule `normalizedStatsSpec` — cpu is
the rounded ratio clamped into `[0,100]` when the system delta is positive and
`0` otherwise, memory used/total are rounded MiB over the `1`-guarded limit,
memory percent is the rounded ratio clamped into `[0,100]` — and the cpu and
memory-percent outputs lie in `[0,100]`. -/
theorem processContainerStats_amended (s : RawStats)
    (h : s.precpuTotal ≤ s.cpuTotal) :
    Wings.processContainerStats s = normalizedStatsSpec s
    ∧ 0 ≤ (Wings.processContainerStats s).cpu
    ∧ (Wings.processContainerStats s).cpu ≤ 100
    ∧ 0 ≤ (Wings.processContainerStats s).memPercent
    ∧ (Wings.processContainerStats s).memPercent ≤ 100 := by
  have hcpus : (if s.onlineCpus = 0 then 1 else s.onlineCpus) = max s.onlineCpus 1 := by
    split <;> omega
  have hlim : (if s.memLimit = 0 then 1 else s.memLimit) = max s.memLimit 1 := by
    split <;> omega
  have hmp_nn : (0 : Rat) ≤ (s.memUsage : Rat) / ((max s.memLimit 1 : Nat) : Rat) * 100 := by
    apply mul_nonneg
    · exact div_nonneg (by positivity) (by positivity)
    · norm_num
  have hmain : Wings.processContainerStats s = normalizedStatsSpec s := by
    simp only [Wings.processContainerStats, normalizedStatsSpec, hcpus, hlim,
      ServerStats.mk.injEq]
    refine ⟨?_, by norm_num, by norm_num, ?_, trivial, trivial⟩
    · by_cases hpos : 0 < (s.systemCpu : Int) - (s.precpuSystem : Int)
      · have hposq : (0 : Rat) < (s.systemCpu : Rat) - (s.precpuSystem : Rat) := by
          have := hpos
          push_cast at this ⊢
          exact_mod_cast this
        rw [if_pos hpos, if_pos hposq]
        have harg : (((s.cpuTotal : Int) - (s.precpuTotal : Int) : Int) : Rat)
              / (((s.systemCpu : Int) - (s.precpuSystem : Int) : Int) : Rat)
              * ((max s.onlineCpus 1 : Nat) : Rat) * 100
            = ((s.cpuTotal : Rat) - (s.precpuTotal : Rat))
              / ((s.systemCpu : Rat) - (s.precpuSystem : Rat))
              * ((max s.onlineCpus 1 : Nat) : Rat) * 100 := by
          push_cast
          ring
        rw [harg]
        have hXnn : (0 : Rat) ≤ ((s.cpuTotal : Rat) - (s.precpuTotal : Rat))
            / ((s.systemCpu : Rat) - (s.precpuSystem : Rat))
            * ((max s.onlineCpus 1 : Nat) : Rat) * 100 := by
          apply mul_nonneg
          apply mul_nonneg
          · apply div_nonneg
            · have : (s.precpuTotal : Rat) ≤ (s.cpuTotal : Rat) := by exact_mod_cast h
              linarith
            · linarith
          · positivity
          · norm_num
        rw [clamp100, max_eq_left (jsRound_nonneg _ hXnn)]
      · rw [if_neg hpos, if_neg (by
          intro hq
          exact hpos (by exact_mod_cast (by push_cast at hq ⊢; exact_mod_cast hq :
            (0 : Rat) < ((s.systemCpu : Int) : Rat) - ((s.precpuSystem : Int) : Rat))))]
        rw [jsRound_zero]
        norm_num
    · rw [clamp100, max_eq_left (jsRound_nonneg _ hmp_nn)]
  refine ⟨hmain, ?_, ?_, ?_, ?_⟩ <;> rw [hmain] <;>
    simp only [normalizedStatsSpec] <;>
    first
      | (rcases lt_or_le (0 : Rat)
            ((s.systemCpu : Rat) - (s.precpuSystem : Rat)) with hq | hq
         · simp only [if_pos hq]
           rcases clamp100_bounds (jsRound (((s.cpuTotal : Rat) - (s.precpuTotal : Rat))
             / ((s.systemCpu : Rat) - (s.precpuSystem : Rat))
             * ((max s.onlineCpus 1 : Nat) : Rat) * 100)) with ⟨h1, h2⟩
           omega
         · simp only [if_neg (not_lt.mpr hq)]
           omega)
      | (rcases clamp100_bounds (jsRound ((s.memUsage : Rat)
            / ((max s.memLimit 1 : Nat) : Rat) * 100)) with ⟨h1, h2⟩
         omega)

/-- Witness for C7's amended normalization at a concrete sample. -/
theorem processContainerStats_amended_witness :
    Wings.processContainerStats ⟨50, 10, 100, 20, 2, 1048576, 2097152, 5, 6⟩
      = normalizedStatsSpec ⟨50, 10, 100, 20, 2, 1048576, 2097152, 5, 6⟩ :=
  (processContainerStats_amended ⟨50, 10, 100, 20, 2, 1048576, 2097152, 5, 6⟩
    (by decide)).1

/-- C3 (amended): on a config with no declared variables, every occurrence of
`(server.build.default.port)` becomes `cfg.port` and every `(SERVER_MEMORY)`
becomes `cfg.plan.ram × 1024` in the wings.js expander, which leaves
`(SERVER_PORT)` untouched; the part_000 expander instead rewrites
`(SERVER_PORT)` (and `(SERVER_MEMORY)`) and leaves
`(server.build.default.port)` untouched. -/
theorem processVariables_system_placeholders (p r : Nat) (hp : p ≠ 0) :
    Wings.processVariables (ph "server.build.default.port") (cfgSys p r) = Nat.repr p
    ∧ Wings.processVariables (ph "SERVER_MEMORY") (cfgSys p r) = Nat.repr (r * 1024)
    ∧ Wings.processVariables (ph "SERVER_PORT") (cfgSys p r) = ph "SERVER_PORT"
    ∧ Legacy.processVariables (ph "SERVER_PORT") (cfgSys p r) = Nat.repr p
    ∧ Legacy.processVariables (ph "SERVER_MEMORY") (cfgSys p r) = Nat.repr (r * 1024)
    ∧ Legacy.processVariables (ph "server.build.default.port") (cfgSys p r)
        = ph "server.build.default.port" := by
  have hport : portStr (cfgSys p r) = Nat.repr p := by
    simp [portStr, cfgSys, hp]
  have hmem : memStr (cfgSys p r) = Nat.repr (r * 1024) := by
    simp [memStr, cfgSys]
  have hbp : braceFree (Nat.repr p).data = true := natRepr_braceFree p
  have hbm : braceFree (Nat.repr (r * 1024)).data = true := natRepr_braceFree _
  have hW : ∀ t : String, Wings.processVariables t (cfgSys p r)
      = jsReplaceAll (jsReplaceAll (jsReplaceAll t
          (ph "server.build.default.port") (portStr (cfgSys p r)))
          (ph "SERVER_MEMORY") (memStr (cfgSys p r)))
          (ph "SERVER_JARFILE") (jarStr (cfgSys p r)) := by
    intro t
    rfl
  have hL : ∀ t : String, Legacy.processVariables t (cfgSys p r)
      = jsReplaceAll (jsReplaceAll t (ph "SERVER_PORT") (portStr (cfgSys p r)))
          (ph "SERVER_MEMORY") (memStr (cfgSys p r)) := by
    intro t
    rfl
  have hdig : ∀ dig pat : String, braceFree dig.data = true →
      jsReplaceAll dig (ph pat) (memStr (cfgSys p r)) = dig := by
    intro dig pat hd
    refine jsReplaceAll_no_match dig (ph pat) _ ?_ (ph_data_ne_nil pat)
    exact hasSubstr_of_braceFree _ _ hd
  have hdig2 : ∀ dig pat rep : String, braceFree dig.data = true →
      jsReplaceAll dig (ph pat) rep = dig := by
    intro dig pat rep hd
    refine jsReplaceAll_no_match dig (ph pat) _ ?_ (ph_data_ne_nil pat)
    exact hasSubstr_of_braceFree _ _ hd
  refine ⟨?_, ?_, ?_, ?_, ?_, ?_⟩
  · rw [hW, jsReplaceAll_self, hport, hdig2 _ "SERVER_MEMORY" _ hbp,
      hdig2 _ "SERVER_JARFILE" _ hbp]
  · rw [hW, jsReplaceAll_no_match (ph "SERVER_MEMORY") (ph "server.build.default.port")
        (portStr (cfgSys p r)) (by decide) (ph_data_ne_nil _),
      jsReplaceAll_self, hmem, hdig2 _ "SERVER_JARFILE" _ hbm]
  · rw [hW, jsReplaceAll_no_match (ph "SERVER_PORT") (ph "server.build.default.port")
        (portStr (cfgSys p r)) (by decide) (ph_data_ne_nil _),
      jsReplaceAll_no_match (ph "SERVER_PORT") (ph "SERVER_MEMORY")
        (memStr (cfgSys p r)) (by decide) (ph_data_ne_nil _),
      jsReplaceAll_no_match (ph "SERVER_PORT") (ph "SERVER_JARFILE")
        (jarStr (cfgSys p r)) (by decide) (ph_data_ne_nil _)]
  · rw [hL, jsReplaceAll_self, hport, hdig2 _ "SERVER_MEMORY" _ hbp]
  · rw [hL, jsReplaceAll_no_match (ph "SERVER_MEMORY") (ph "SERVER_PORT")
        (portStr (cfgSys p r)) (by decide) (ph_data_ne_nil _),
      jsReplaceAll_self, hmem]
  · rw [hL, jsReplaceAll_no_match (ph "server.build.default.port") (ph "SERVER_PORT")
        (portStr (cfgSys p r)) (by decide) (ph_data_ne_nil _),
      jsReplaceAll_no_match (ph "server.build.default.port") (ph "SERVER_MEMORY")
        (memStr (cfgSys p r)) (by decide) (ph_data_ne_nil _)]

/-- Witness for C3's amended placeholder behavior at port 7777, ram 2. -/
theorem processVariables_system_placeholders_witness :
    Wings.processVariables (ph "server.build.default.port") (cfgSys 7777 2)
      = Nat.repr 7777
    ∧ Legacy.processVariables (ph "SERVER_PORT") (cfgSys 7777 2) = Nat.repr 7777 :=
  ⟨(processVariables_system_placeholders 7777 2 (by decide)).1,
   (processVariables_system_placeholders 7777 2 (by decide)).2.2.2.1⟩

end Daemon
